import Mathlib

/-!
Verification of the aviation-weather MCP server (src/server.py).

The source is a thin bridge over one HTTP helper (`_awc_get`), one error
formatter (`_handle_error`) and five tool functions (`get_metar`, `get_taf`,
`get_pireps`, `get_airsigmet`, `get_station_info`).  The embedding below
models Python values and control flow directly:

* Python JSON values (the result of `resp.json()` / argument of
  `json.dumps`) are the inductive `Json`.  Python `float`s are carried as
  `Rat`; no arithmetic is ever performed on them by the source, they are
  only stored and forwarded.
* The outgoing query-parameter dict is an insertion-ordered association
  list `Params` (all keys inserted by the source are distinct, so plain
  append models `dict.__setitem__`).
* The single outbound HTTP call is an environment-supplied value
  `FetchOutcome`: either a response (status, body text, content-type
  header, and the result of attempting to JSON-decode the body) or a
  raised transport exception (timeout, or any other exception with its
  type name and message).
* Raised Python exceptions are the inductive `PyExc`; a function that can
  raise returns `Except PyExc _`.
* `json.dumps(data, indent=2)` (default `ensure_ascii=True`) is modelled
  by `dumps2`.  Python `str.strip()` is modelled by `String.trim` and
  `text[:300]` (slicing by code points) by `pySlice`.
-/

/-- Python JSON values, as produced by `resp.json()`.  `float` is carried as
a `Rat`; the source never computes with numbers, it only re-serializes
them. -/
inductive Json where
  | null : Json
  | bool (b : Bool) : Json
  | int (n : Int) : Json
  | float (q : Rat) : Json
  | str (s : String) : Json
  | arr (elems : List Json) : Json
  | obj (entries : List (String × Json)) : Json

/-- Lowercase hexadecimal digit, as used by Python's `\uXXXX` escapes. -/
def hexDigit (n : Nat) : Char :=
  if n < 10 then Char.ofNat (48 + n) else Char.ofNat (87 + n)

/-- Four lowercase hex digits of a value below 0x10000. -/
def hex4 (n : Nat) : String :=
  String.mk [hexDigit (n / 4096 % 16), hexDigit (n / 256 % 16),
             hexDigit (n / 16 % 16), hexDigit (n % 16)]

/-- Escape of one character in a Python `json.dumps` string with the default
`ensure_ascii=True`: characters outside 0x20..0x7e are escaped, `"` and `\`
are escaped, control characters use the short escapes where Python has
them, and astral characters become surrogate pairs. -/
def escChar (c : Char) : String :=
  if c = '"' then "\\\""
  else if c = '\\' then "\\\\"
  else if c = '\n' then "\\n"
  else if c = '\r' then "\\r"
  else if c = '\t' then "\\t"
  else if c.toNat = 8 then "\\b"
  else if c.toNat = 12 then "\\f"
  else if 32 ≤ c.toNat ∧ c.toNat ≤ 126 then String.mk [c]
  else if c.toNat < 65536 then "\\u" ++ hex4 c.toNat
  else "\\u" ++ hex4 (55296 + (c.toNat - 65536) / 1024) ++
       "\\u" ++ hex4 (56320 + (c.toNat - 65536) % 1024)

/-- A Python JSON string literal: quotes around the escaped characters. -/
def encodeStr (s : String) : String :=
  "\"" ++ String.join (s.data.map escChar) ++ "\""

/-- Indentation produced by `json.dumps(..., indent=2)` at nesting level
`lvl`: `2 * lvl` spaces. -/
def jsonInd (lvl : Nat) : String :=
  String.mk (List.replicate (2 * lvl) ' ')

/-- Python's repr of a number for `json.dumps`.  Integral values print as
Python ints; a Python float with integral value prints with a trailing
`.0`.  Non-integral floats are rendered from the rational carrier (the
source never serializes such a value in any property proved below). -/
def numRepr (isFloat : Bool) (q : Rat) : String :=
  if q.den = 1 then (if isFloat then toString q.num ++ ".0" else toString q.num)
  else toString q

mutual

/-- The serializer `json.dumps(data, indent=2)` of the source, at nesting
level `lvl`.  With an indent, Python separates items by `",\n"` followed by
the next level's indentation, uses `": "` between key and value, and prints
empty containers without newlines. -/
def dumps2 : Json → Nat → String
  | .null, _ => "null"
  | .bool b, _ => if b then "true" else "false"
  | .int n, _ => numRepr false n
  | .float q, _ => numRepr true q
  | .str s, _ => encodeStr s
  | .arr [], _ => "[]"
  | .arr (x :: xs), lvl =>
      "[\n" ++ dumpsArr (x :: xs) (lvl + 1) ++ "\n" ++ jsonInd lvl ++ "]"
  | .obj [], _ => "\x7b\x7d"
  | .obj (kv :: kvs), lvl =>
      "\x7b\n" ++ dumpsObj (kv :: kvs) (lvl + 1) ++ "\n" ++ jsonInd lvl ++ "\x7d"

/-- Array elements of `dumps2`, separated by `",\n"`, each preceded by the
current indentation. -/
def dumpsArr : List Json → Nat → String
  | [], _ => ""
  | [x], lvl => jsonInd lvl ++ dumps2 x lvl
  | x :: y :: xs, lvl =>
      jsonInd lvl ++ dumps2 x lvl ++ ",\n" ++ dumpsArr (y :: xs) lvl

/-- Object entries of `dumps2`, separated by `",\n"`, each preceded by the
current indentation, with `": "` between encoded key and value. -/
def dumpsObj : List (String × Json) → Nat → String
  | [], _ => ""
  | [(k, v)], lvl => jsonInd lvl ++ encodeStr k ++ ": " ++ dumps2 v lvl
  | (k, v) :: kv :: kvs, lvl =>
      jsonInd lvl ++ encodeStr k ++ ": " ++ dumps2 v lvl ++ ",\n" ++
      dumpsObj (kv :: kvs) lvl

end

/-- A scalar value stored in the outgoing query-parameter dict: the source
stores strings (`ids`, `format`, `id`, `hazard`), Python ints (`distance`)
and Python floats (`hours`, `age`, carried as `Rat`). -/
inductive PyVal where
  | str (s : String) : PyVal
  | int (n : Int) : PyVal
  | float (q : Rat) : PyVal
deriving DecidableEq

/-- The outgoing query-parameter dict, in insertion order.  All keys the
source inserts are distinct, so `dict[k] = v` is modelled by appending. -/
abbrev Params : Type := List (String × PyVal)

/-- Python `x or default` on an optional string: `None` and `""` are the
falsy strings, everything else is returned unchanged. -/
def pyOrStr (x : Option String) (dflt : String) : String :=
  match x with
  | none => dflt
  | some s => if s = "" then dflt else s

/-- Python `x[:n]` on a string: the first `n` code points. -/
def pySlice (s : String) (n : Nat) : String :=
  ⟨s.data.take n⟩

/-- Python containment `pat in s` on strings. -/
def subList (pat : List Char) : List Char → Bool
  | [] => pat.isEmpty
  | c :: rest => pat.isPrefixOf (c :: rest) || subList pat rest

/-- Python `pat in s` for strings, used for the content-type check. -/
def strContains (s pat : String) : Bool :=
  subList pat.data s.data

/-- The exceptions the source distinguishes in `_handle_error`:
`httpx.HTTPStatusError` (carrying `e.response`'s status code and text),
`httpx.TimeoutException`, and any other exception (carrying
`type(e).__name__` and `str(e)`). -/
inductive PyExc where
  | httpStatusError (status : Nat) (text : String) : PyExc
  | timeoutException : PyExc
  | other (name msg : String) : PyExc
deriving DecidableEq

/-- One HTTP response as the transport library presents it to the source:
`resp.status_code`, `resp.text`, `resp.headers.get("content-type", "")`,
and the outcome of `resp.json()` — a parsed `Json` value, or the decode
exception's type name and message. -/
structure HttpResponse where
  status : Nat
  text : String
  contentType : String
  jsonBody : Except (String × String) Json

/-- The behaviour of the single outbound `client.get` call, supplied by the
environment: a response, a raised `httpx.TimeoutException`, or any other
raised exception (type name and message). -/
inductive FetchOutcome where
  | success (r : HttpResponse) : FetchOutcome
  | timeout : FetchOutcome
  | failure (name msg : String) : FetchOutcome

/-- The `dict | list | str` value `_awc_get` returns on success: either a
JSON value (from `resp.json()` or one of the two synthetic dicts) or the
trimmed response text. -/
inductive PyData where
  | jsonVal (j : Json) : PyData
  | text (s : String) : PyData

/-- Configuration constant `AWC_BASE` of the source. -/
def AWC_BASE : String := "https://aviationweather.gov/api/data"

/-- Configuration constant `USER_AGENT` of the source. -/
def USER_AGENT : String := "aviation-weather-mcp/1.0 (Claude Chat Connector)"

/-- The helper `_awc_get(endpoint, params)`: 204 and 400 return synthetic
dicts, any other non-2xx status makes `resp.raise_for_status()` raise an
`httpx.HTTPStatusError`, and otherwise the body is decoded by content
type — `resp.json()` when `"json" in content_type` (which itself may raise
a decode exception), the stripped text otherwise.  The `params` only shape
the outbound request; the decoding never reads them. -/
def _awc_get (endpoint : String) (params : Params) (o : FetchOutcome) :
    Except PyExc PyData :=
  let _url := AWC_BASE ++ "/" ++ endpoint
  let _headers := [("User-Agent", USER_AGENT)]
  let _params := params
  match o with
  | .timeout => .error .timeoutException
  | .failure n m => .error (.other n m)
  | .success r =>
    if r.status = 204 then
      .ok (.jsonVal (Json.obj [("message",
        Json.str "No data available for this request.")]))
    else if r.status = 400 then
      .ok (.jsonVal (Json.obj [("error",
        Json.str ("Bad request – check your parameters. Details: " ++
                  r.text.trim))]))
    else if r.status < 200 ∨ 300 ≤ r.status then
      .error (.httpStatusError r.status r.text)
    else if strContains r.contentType "json" then
      match r.jsonBody with
      | .ok j => .ok (.jsonVal j)
      | .error e => .error (.other e.1 e.2)
    else
      .ok (.text r.text.trim)

/-- The formatter `_handle_error(e)` of the source, checking
`httpx.HTTPStatusError` first, `httpx.TimeoutException` second, and
falling back to the exception's type name and message. -/
def _handle_error (e : PyExc) : String :=
  match e with
  | .httpStatusError status text =>
      "Error: API returned status " ++ toString status ++ ". " ++
      pySlice text 300
  | .timeoutException =>
      "Error: Request to aviationweather.gov timed out. Try again."
  | .other name msg => "Error: " ++ name ++ ": " ++ msg

/-- What a tool function actually returns: a string in every reachable
case; `nonStr` records the Python value that would be returned unchanged
if `resp.json()` produced a scalar other than a string (the declared
`-> str` annotation is not enforced by Python). -/
inductive ToolResult where
  | str (s : String) : ToolResult
  | nonStr (j : Json) : ToolResult

/-- Python `isinstance(data, (dict, list))` on a JSON value. -/
def isStructured : Json → Bool
  | .obj _ => true
  | .arr _ => true
  | _ => false

/-- The shared result step of every tool:
`json.dumps(data, indent=2) if isinstance(data, (dict, list)) else data`. -/
def serializeData : PyData → ToolResult
  | .text s => .str s
  | .jsonVal j =>
    if isStructured j then .str (dumps2 j 0)
    else match j with
      | .str s => .str s
      | j => .nonStr j

/-- The shared `try`/`except` shape of every tool body: call `_awc_get`,
serialize a successful result, and turn any raised exception into
`_handle_error e`. -/
def run_tool (endpoint : String) (params : Params) (o : FetchOutcome) :
    ToolResult :=
  match _awc_get endpoint params o with
  | .ok data => serializeData data
  | .error e => .str (_handle_error e)

/-- Parameter assembly of `get_metar`:
`params = {"ids": ids, "format": format or "json"}`, then
`params["hours"] = hours` only when `hours is not None`. -/
def metar_params (ids : String) (hours : Option Rat)
    (format : Option String) : Params :=
  let params := [("ids", PyVal.str ids),
                 ("format", PyVal.str (pyOrStr format "json"))]
  match hours with
  | some h => params ++ [("hours", PyVal.float h)]
  | none => params

/-- The tool `get_metar`.  Python signature defaults: `hours=None`,
`format="json"`; an omitted argument arrives as that default. -/
def get_metar (ids : String) (hours : Option Rat) (format : Option String)
    (o : FetchOutcome) : ToolResult :=
  run_tool "metar" (metar_params ids hours format) o

/-- Parameter assembly of `get_taf`:
`params = {"ids": ids, "format": format or "json"}`. -/
def taf_params (ids : String) (format : Option String) : Params :=
  [("ids", PyVal.str ids), ("format", PyVal.str (pyOrStr format "json"))]

/-- The tool `get_taf`.  Python signature default: `format="json"`. -/
def get_taf (ids : String) (format : Option String) (o : FetchOutcome) :
    ToolResult :=
  run_tool "taf" (taf_params ids format) o

/-- Parameter assembly of `get_pireps`: starts from
`{"format": format or "json"}`; `id` is added when truthy (`if id:`),
`distance` and `age` when not `None`. -/
def pireps_params (id : Option String) (distance : Option Int)
    (age : Option Rat) (format : Option String) : Params :=
  let p0 := [("format", PyVal.str (pyOrStr format "json"))]
  let p1 := match id with
    | some s => if s = "" then p0 else p0 ++ [("id", PyVal.str s)]
    | none => p0
  let p2 := match distance with
    | some d => p1 ++ [("distance", PyVal.int d)]
    | none => p1
  match age with
  | some a => p2 ++ [("age", PyVal.float a)]
  | none => p2

/-- The tool `get_pireps`.  Python signature defaults: `id=None`,
`distance=200`, `age=2.0`, `format="json"`. -/
def get_pireps (id : Option String) (distance : Option Int)
    (age : Option Rat) (format : Option String) (o : FetchOutcome) :
    ToolResult :=
  run_tool "pirep" (pireps_params id distance age format) o

/-- Parameter assembly of `get_airsigmet`: starts from
`{"format": format or "json"}`; `hazard` is added when truthy
(`if hazard:`). -/
def airsigmet_params (format : Option String) (hazard : Option String) :
    Params :=
  let p0 := [("format", PyVal.str (pyOrStr format "json"))]
  match hazard with
  | some h => if h = "" then p0 else p0 ++ [("hazard", PyVal.str h)]
  | none => p0

/-- The tool `get_airsigmet`.  Python signature defaults: `format="json"`,
`hazard=None`. -/
def get_airsigmet (format : Option String) (hazard : Option String)
    (o : FetchOutcome) : ToolResult :=
  run_tool "airsigmet" (airsigmet_params format hazard) o

/-- Parameter assembly of `get_station_info`:
`params = {"ids": ids, "format": format or "json"}`. -/
def station_info_params (ids : String) (format : Option String) : Params :=
  [("ids", PyVal.str ids), ("format", PyVal.str (pyOrStr format "json"))]

/-- The tool `get_station_info`.  Python signature default:
`format="json"`. -/
def get_station_info (ids : String) (format : Option String)
    (o : FetchOutcome) : ToolResult :=
  run_tool "stationinfo" (station_info_params ids format) o

/-- A string that begins with the fault marker `Error:` — the form every
fault takes at the tool boundary, and the form a successful result must
never take. -/
def isErrorString (s : String) : Prop :=
  ∃ t, s = "Error:" ++ t

/-- The synthetic dict the source returns on a 204 response
(src/server.py line 50). -/
def noDataJson : Json :=
  Json.obj [("message", Json.str "No data available for this request.")]

/-- The synthetic dict the source returns on a 400 response
(src/server.py line 52): it embeds the stripped upstream body. -/
def badRequestJson (body : String) : Json :=
  Json.obj [("error",
    Json.str ("Bad request – check your parameters. Details: " ++
              body.trim))]

/-- Every string `_handle_error` produces begins with `Error:`. -/
theorem handle_error_isError (e : PyExc) : isErrorString (_handle_error e) := by
  cases e with
  | httpStatusError status text =>
      refine ⟨" API returned status " ++ toString status ++ ". " ++
              pySlice text 300, ?_⟩
      show "Error: API returned status " ++ toString status ++ ". " ++
           pySlice text 300 = _
      simp only [String.append_assoc]
      conv_rhs => rw [← String.append_assoc]
      congr 1
  | timeoutException =>
      exact ⟨" Request to aviationweather.gov timed out. Try again.", by decide⟩
  | other name msg =>
      refine ⟨" " ++ name ++ ": " ++ msg, ?_⟩
      show "Error: " ++ name ++ ": " ++ msg = _
      simp only [String.append_assoc]
      conv_rhs => rw [← String.append_assoc]
      congr 1

/-- A string that starts with an opening brace and a newline — as every
`json.dumps(..., indent=2)` rendering of a non-empty dict does — never
begins with `Error:`. -/
theorem not_error_of_brace (s t : String) (h : s = "\x7b\n" ++ t) :
    ¬ isErrorString s := by
  rintro ⟨u, hu⟩
  rw [h] at hu
  have hd := congrArg String.data hu
  rw [String.data_append, String.data_append] at hd
  have h2 : ("\x7b\n" : String).data = ['\x7b', '\n'] := rfl
  have h3 : ("Error:" : String).data = ['E', 'r', 'r', 'o', 'r', ':'] := rfl
  rw [h2, h3] at hd
  simp at hd

/-- C1: for every one of the five operations, any exception raised inside
the operation (timeout, transport failure, status error from
`raise_for_status`, JSON decode error — every `Except.error` the modelled
body can produce) is caught and the operation returns normally with the
`_handle_error` string, and every `_handle_error` string begins with
`Error:`.  The tools are total functions into `ToolResult`, so no
exception propagates to the caller. -/
theorem c1_fault_containment :
    (∀ e, isErrorString (_handle_error e)) ∧
    (∀ ids hours format o e,
      _awc_get "metar" (metar_params ids hours format) o = .error e →
      get_metar ids hours format o = .str (_handle_error e)) ∧
    (∀ ids format o e,
      _awc_get "taf" (taf_params ids format) o = .error e →
      get_taf ids format o = .str (_handle_error e)) ∧
    (∀ id distance age format o e,
      _awc_get "pirep" (pireps_params id distance age format) o = .error e →
      get_pireps id distance age format o = .str (_handle_error e)) ∧
    (∀ format hazard o e,
      _awc_get "airsigmet" (airsigmet_params format hazard) o = .error e →
      get_airsigmet format hazard o = .str (_handle_error e)) ∧
    (∀ ids format o e,
      _awc_get "stationinfo" (station_info_params ids format) o = .error e →
      get_station_info ids format o = .str (_handle_error e)) := by
  refine ⟨handle_error_isError, ?_, ?_, ?_, ?_, ?_⟩
  · intro ids hours format o e h
    simp only [get_metar, run_tool]
    rw [h]
  · intro ids format o e h
    simp only [get_taf, run_tool]
    rw [h]
  · intro id distance age format o e h
    simp only [get_pireps, run_tool]
    rw [h]
  · intro format hazard o e h
    simp only [get_airsigmet, run_tool]
    rw [h]
  · intro ids format o e h
    simp only [get_station_info, run_tool]
    rw [h]

/-- Witness for C1: the metar tool on a timed-out transport call returns
the `_handle_error` rendering of the timeout exception. -/
theorem c1_fault_containment_witness :
    get_metar "KTUS" none (some "json") FetchOutcome.timeout =
      ToolResult.str (_handle_error PyExc.timeoutException) :=
  c1_fault_containment.2.1 "KTUS" none (some "json") FetchOutcome.timeout
    PyExc.timeoutException rfl

/-- C2: for every operation, an upstream 400 response produces a normal
return whose string is the `json.dumps` rendering of the synthetic
bad-request dict, which embeds the trimmed upstream body; the result is
never an `Error:`-prefixed fault string, and no exception escapes (the
tools are total). -/
theorem c2_bad_request_as_data :
    (∀ ids hours format body ct jb,
      get_metar ids hours format (.success ⟨400, body, ct, jb⟩) =
        .str (dumps2 (badRequestJson body) 0) ∧
      ¬ isErrorString (dumps2 (badRequestJson body) 0)) ∧
    (∀ ids format body ct jb,
      get_taf ids format (.success ⟨400, body, ct, jb⟩) =
        .str (dumps2 (badRequestJson body) 0)) ∧
    (∀ id distance age format body ct jb,
      get_pireps id distance age format (.success ⟨400, body, ct, jb⟩) =
        .str (dumps2 (badRequestJson body) 0)) ∧
    (∀ format hazard body ct jb,
      get_airsigmet format hazard (.success ⟨400, body, ct, jb⟩) =
        .str (dumps2 (badRequestJson body) 0)) ∧
    (∀ ids format body ct jb,
      get_station_info ids format (.success ⟨400, body, ct, jb⟩) =
        .str (dumps2 (badRequestJson body) 0)) := by
  refine ⟨?_, ?_, ?_, ?_, ?_⟩
  · intro ids hours format body ct jb
    refine ⟨rfl, ?_⟩
    apply not_error_of_brace _
      (dumpsObj [("error",
        Json.str ("Bad request – check your parameters. Details: " ++
                  body.trim))] 1 ++ ("\n" ++ (jsonInd 0 ++ "\x7d")))
    simp [badRequestJson, dumps2, String.append_assoc]
  · intro ids format body ct jb
    rfl
  · intro id distance age format body ct jb
    rfl
  · intro format hazard body ct jb
    rfl
  · intro ids format body ct jb
    rfl

/-- Witness for C2: a concrete 400 response to the metar tool yields the
serialized bad-request dict and not an `Error:`-prefixed string. -/
theorem c2_bad_request_as_data_witness :
    get_metar "KTUS" none (some "json")
        (.success ⟨400, "unknown station", "", Except.ok Json.null⟩) =
      ToolResult.str (dumps2 (badRequestJson "unknown station") 0) ∧
    ¬ isErrorString (dumps2 (badRequestJson "unknown station") 0) :=
  c2_bad_request_as_data.1 "KTUS" none (some "json") "unknown station" ""
    (Except.ok Json.null)

/-- C3: for every operation, an upstream 204 response produces the
serialization of the synthetic dict with message "No data available for
this request.", whose `json.dumps(..., indent=2)` rendering is the fixed
literal below; it is a normal return, never a fault. -/
theorem c3_no_data_204 :
    (∀ ids hours format body ct jb,
      get_metar ids hours format (.success ⟨204, body, ct, jb⟩) =
        .str (dumps2 noDataJson 0)) ∧
    (∀ ids format body ct jb,
      get_taf ids format (.success ⟨204, body, ct, jb⟩) =
        .str (dumps2 noDataJson 0)) ∧
    (∀ id distance age format body ct jb,
      get_pireps id distance age format (.success ⟨204, body, ct, jb⟩) =
        .str (dumps2 noDataJson 0)) ∧
    (∀ format hazard body ct jb,
      get_airsigmet format hazard (.success ⟨204, body, ct, jb⟩) =
        .str (dumps2 noDataJson 0)) ∧
    (∀ ids format body ct jb,
      get_station_info ids format (.success ⟨204, body, ct, jb⟩) =
        .str (dumps2 noDataJson 0)) ∧
    dumps2 noDataJson 0 =
      "\x7b\n  \"message\": \"No data available for this request.\"\n\x7d" := by
  refine ⟨?_, ?_, ?_, ?_, ?_, by decide⟩ <;> intros <;> rfl

/-- C4: for every one of the five operations and all arguments, a timed-out
transport call yields exactly the same literal string
"Error: Request to aviationweather.gov timed out. Try again.". -/
theorem c4_timeout_literal :
    (∀ ids hours format, get_metar ids hours format .timeout =
      .str "Error: Request to aviationweather.gov timed out. Try again.") ∧
    (∀ ids format, get_taf ids format .timeout =
      .str "Error: Request to aviationweather.gov timed out. Try again.") ∧
    (∀ id distance age format, get_pireps id distance age format .timeout =
      .str "Error: Request to aviationweather.gov timed out. Try again.") ∧
    (∀ format hazard, get_airsigmet format hazard .timeout =
      .str "Error: Request to aviationweather.gov timed out. Try again.") ∧
    (∀ ids format, get_station_info ids format .timeout =
      .str "Error: Request to aviationweather.gov timed out. Try again.") := by
  refine ⟨?_, ?_, ?_, ?_, ?_⟩ <;> intros <;> rfl

/-- C5: for every operation, a response whose status is non-2xx and neither
204 nor 400 yields the status-fault string "Error: API returned status
<code>. " followed by the first-300-code-points slice of the upstream body;
the slice is at most 300 characters long. -/
theorem c5_status_fault :
    (∀ ids hours format r, r.status < 200 ∨ 300 ≤ r.status → r.status ≠ 400 →
      get_metar ids hours format (.success r) =
        .str ("Error: API returned status " ++ toString r.status ++ ". " ++
              pySlice r.text 300)) ∧
    (∀ ids format r, r.status < 200 ∨ 300 ≤ r.status → r.status ≠ 400 →
      get_taf ids format (.success r) =
        .str ("Error: API returned status " ++ toString r.status ++ ". " ++
              pySlice r.text 300)) ∧
    (∀ id distance age format r,
      r.status < 200 ∨ 300 ≤ r.status → r.status ≠ 400 →
      get_pireps id distance age format (.success r) =
        .str ("Error: API returned status " ++ toString r.status ++ ". " ++
              pySlice r.text 300)) ∧
    (∀ format hazard r, r.status < 200 ∨ 300 ≤ r.status → r.status ≠ 400 →
      get_airsigmet format hazard (.success r) =
        .str ("Error: API returned status " ++ toString r.status ++ ". " ++
              pySlice r.text 300)) ∧
    (∀ ids format r, r.status < 200 ∨ 300 ≤ r.status → r.status ≠ 400 →
      get_station_info ids format (.success r) =
        .str ("Error: API returned status " ++ toString r.status ++ ". " ++
              pySlice r.text 300)) ∧
    (∀ text, (pySlice text 300).length ≤ 300) := by
  have step : ∀ endpoint params r, r.status < 200 ∨ 300 ≤ r.status →
      r.status ≠ 400 →
      run_tool endpoint params (.success r) =
        .str ("Error: API returned status " ++ toString r.status ++ ". " ++
              pySlice r.text 300) := by
    intro endpoint params r h1 h2
    have h204 : ¬ (r.status = 204) := by omega
    simp only [run_tool, _awc_get]
    rw [if_neg h204, if_neg h2, if_pos h1]
    rfl
  refine ⟨?_, ?_, ?_, ?_, ?_, ?_⟩
  · intro ids hours format r h1 h2
    exact step "metar" (metar_params ids hours format) r h1 h2
  · intro ids format r h1 h2
    exact step "taf" (taf_params ids format) r h1 h2
  · intro id distance age format r h1 h2
    exact step "pirep" (pireps_params id distance age format) r h1 h2
  · intro format hazard r h1 h2
    exact step "airsigmet" (airsigmet_params format hazard) r h1 h2
  · intro ids format r h1 h2
    exact step "stationinfo" (station_info_params ids format) r h1 h2
  · intro text
    show (text.data.take 300).length ≤ 300
    rw [List.length_take]
    exact Nat.min_le_left _ _

/-- Witness for C5: a concrete 503 response to the metar tool yields the
status-fault string at status 503, and the excerpt bound holds for its
body. -/
theorem c5_status_fault_witness :
    get_metar "KTUS" none (some "json")
        (.success ⟨503, "Service Unavailable", "", Except.ok Json.null⟩) =
      ToolResult.str ("Error: API returned status " ++ toString 503 ++ ". " ++
        pySlice "Service Unavailable" 300) ∧
    (pySlice "Service Unavailable" 300).length ≤ 300 :=
  ⟨c5_status_fault.1 "KTUS" none (some "json")
      ⟨503, "Service Unavailable", "", Except.ok Json.null⟩
      (by decide) (by decide),
   c5_status_fault.2.2.2.2.2 "Service Unavailable"⟩

/-- C6: the transport decoding depends only on the response, never on the
request parameters (so never on the requested `format`): the same outcome
yields the same `_awc_get` result under any two parameter mappings; and on
a 2xx response that reaches the decode step (status not 204), a
content-type containing "json" yields the parsed JSON value while any
other content type yields the trimmed raw body text. -/
theorem c6_content_type_decoding :
    (∀ endpoint p1 p2 o, _awc_get endpoint p1 o = _awc_get endpoint p2 o) ∧
    (∀ endpoint params r j, 200 ≤ r.status → r.status < 300 →
      r.status ≠ 204 → strContains r.contentType "json" = true →
      r.jsonBody = .ok j →
      _awc_get endpoint params (.success r) = .ok (.jsonVal j)) ∧
    (∀ endpoint params r, 200 ≤ r.status → r.status < 300 →
      r.status ≠ 204 → strContains r.contentType "json" = false →
      _awc_get endpoint params (.success r) = .ok (.text r.text.trim)) := by
  refine ⟨fun endpoint p1 p2 o => rfl, ?_, ?_⟩
  · intro endpoint params r j h1 h2 h3 hct hjb
    have h400 : ¬ (r.status = 400) := by omega
    have hrange : ¬ (r.status < 200 ∨ 300 ≤ r.status) := by omega
    simp only [_awc_get]
    rw [if_neg h3, if_neg h400, if_neg hrange, if_pos hct, hjb]
  · intro endpoint params r h1 h2 h3 hct
    have h400 : ¬ (r.status = 400) := by omega
    have hrange : ¬ (r.status < 200 ∨ 300 ≤ r.status) := by omega
    have hct' : ¬ (strContains r.contentType "json" = true) := by
      simp [hct]
    simp only [_awc_get]
    rw [if_neg h3, if_neg h400, if_neg hrange, if_neg hct']

/-- Witness for C6: a JSON-labelled 200 response decodes to the parsed
value, and a CSV-labelled 200 response decodes to the trimmed body text. -/
theorem c6_content_type_decoding_witness :
    _awc_get "metar" []
        (.success ⟨200, "body", "application/json",
          Except.ok (Json.arr [])⟩) = .ok (.jsonVal (Json.arr [])) ∧
    _awc_get "metar" []
        (.success ⟨200, " raw text ", "text/csv", Except.ok Json.null⟩) =
      .ok (.text (String.trim " raw text ")) :=
  ⟨c6_content_type_decoding.2.1 "metar" []
      ⟨200, "body", "application/json", Except.ok (Json.arr [])⟩
      (Json.arr []) (by decide) (by decide) (by decide) (by decide) rfl,
   c6_content_type_decoding.2.2 "metar" []
      ⟨200, " raw text ", "text/csv", Except.ok Json.null⟩
      (by decide) (by decide) (by decide) (by decide)⟩

/-- C7: for get_metar with hours unset and for get_taf, calling with
ids="KTUS" and the default format (the Python signature default "json")
produces exactly the mapping with "ids" = "KTUS" and "format" = "json"
and no other keys. -/
theorem c7_ktus_default_params :
    metar_params "KTUS" none (some "json") =
      [("ids", PyVal.str "KTUS"), ("format", PyVal.str "json")] ∧
    taf_params "KTUS" (some "json") =
      [("ids", PyVal.str "KTUS"), ("format", PyVal.str "json")] := by
  decide

/-- C8: optional parameters left unset (Python `None`, or for the truthy
checks the empty string) are omitted from the outgoing mapping entirely;
a supplied non-absent value is included; and the adapter-level defaults of
get_pireps (distance=200, age=2.0 in the Python signature) appear in the
mapping with their default value when the caller does not supply them. -/
theorem c8_optional_param_policy :
    (∀ ids format, List.lookup "hours" (metar_params ids none format) = none) ∧
    (∀ ids format h, List.lookup "hours" (metar_params ids (some h) format) =
      some (PyVal.float h)) ∧
    (∀ distance age format,
      List.lookup "id" (pireps_params none distance age format) = none) ∧
    (∀ s distance age format, s ≠ "" →
      List.lookup "id" (pireps_params (some s) distance age format) =
        some (PyVal.str s)) ∧
    (∀ id age format,
      List.lookup "distance" (pireps_params id none age format) = none) ∧
    (∀ id age format d,
      List.lookup "distance" (pireps_params id (some d) age format) =
        some (PyVal.int d)) ∧
    (∀ id distance format,
      List.lookup "age" (pireps_params id distance none format) = none) ∧
    (∀ id distance format a,
      List.lookup "age" (pireps_params id distance (some a) format) =
        some (PyVal.float a)) ∧
    (∀ id format,
      List.lookup "distance" (pireps_params id (some 200) (some 2) format) =
        some (PyVal.int 200) ∧
      List.lookup "age" (pireps_params id (some 200) (some 2) format) =
        some (PyVal.float 2)) ∧
    (∀ format, List.lookup "hazard" (airsigmet_params format none) = none) ∧
    (∀ format h, h ≠ "" →
      List.lookup "hazard" (airsigmet_params format (some h)) =
        some (PyVal.str h)) := by
  refine ⟨?_, ?_, ?_, ?_, ?_, ?_, ?_, ?_, ?_, ?_, ?_⟩
  · intro ids format
    rfl
  · intro ids format h
    rfl
  · intro distance age format
    cases distance <;> cases age <;> rfl
  · intro s distance age format hs
    simp only [pireps_params]
    rw [if_neg hs]
    cases distance <;> cases age <;> rfl
  · intro id age format
    rcases id with _ | s
    · cases age <;> rfl
    · by_cases hs : s = ""
      · subst hs
        cases age <;> rfl
      · simp only [pireps_params]
        rw [if_neg hs]
        cases age <;> rfl
  · intro id age format d
    rcases id with _ | s
    · cases age <;> rfl
    · by_cases hs : s = ""
      · subst hs
        cases age <;> rfl
      · simp only [pireps_params]
        rw [if_neg hs]
        cases age <;> rfl
  · intro id distance format
    rcases id with _ | s
    · cases distance <;> rfl
    · by_cases hs : s = ""
      · subst hs
        cases distance <;> rfl
      · simp only [pireps_params]
        rw [if_neg hs]
        cases distance <;> rfl
  · intro id distance format a
    rcases id with _ | s
    · cases distance <;> rfl
    · by_cases hs : s = ""
      · subst hs
        cases distance <;> rfl
      · simp only [pireps_params]
        rw [if_neg hs]
        cases distance <;> rfl
  · intro id format
    rcases id with _ | s
    · exact ⟨rfl, rfl⟩
    · by_cases hs : s = ""
      · subst hs
        exact ⟨rfl, rfl⟩
      · constructor <;> simp only [pireps_params] <;> rw [if_neg hs] <;> rfl
  · intro format
    rfl
  · intro format h hh
    simp only [airsigmet_params]
    rw [if_neg hh]
    rfl

/-- Witness for C8: a supplied pireps center station and a supplied
airsigmet hazard appear in the outgoing mapping. -/
theorem c8_optional_param_policy_witness :
    List.lookup "id" (pireps_params (some "KORD") (some 200) (some 2)
      (some "json")) = some (PyVal.str "KORD") ∧
    List.lookup "hazard" (airsigmet_params (some "json") (some "turb")) =
      some (PyVal.str "turb") :=
  ⟨c8_optional_param_policy.2.2.2.1 "KORD" (some 200) (some 2) (some "json")
      (by decide),
   c8_optional_param_policy.2.2.2.2.2.2.2.2.2.2 (some "json") "turb"
      (by decide)⟩

/-- Counterexample to C9 as stated: the caller-supplied format value "" is
not forwarded — the outgoing mapping holds "json", not the supplied "". -/
theorem c9_format_counterexample :
    List.lookup "format" (metar_params "KTUS" none (some "")) ≠
      some (PyVal.str "") ∧
    List.lookup "format" (metar_params "KTUS" none (some "")) =
      some (PyVal.str "json") := by
  decide

/-- C9 (amended): for every operation and every call, the outgoing mapping
contains the key "format", holding `format or "json"` — the
caller-supplied value when a truthy (non-None, non-empty) one is supplied,
and the canonical default "json" otherwise. -/
theorem c9_format_always_present :
    (∀ ids hours format, List.lookup "format" (metar_params ids hours format) =
      some (PyVal.str (pyOrStr format "json"))) ∧
    (∀ ids format, List.lookup "format" (taf_params ids format) =
      some (PyVal.str (pyOrStr format "json"))) ∧
    (∀ id distance age format,
      List.lookup "format" (pireps_params id distance age format) =
        some (PyVal.str (pyOrStr format "json"))) ∧
    (∀ format hazard, List.lookup "format" (airsigmet_params format hazard) =
      some (PyVal.str (pyOrStr format "json"))) ∧
    (∀ ids format, List.lookup "format" (station_info_params ids format) =
      some (PyVal.str (pyOrStr format "json"))) ∧
    (∀ s, s ≠ "" → pyOrStr (some s) "json" = s) ∧
    pyOrStr none "json" = "json" ∧
    pyOrStr (some "") "json" = "json" := by
  refine ⟨?_, ?_, ?_, ?_, ?_, ?_, rfl, rfl⟩
  · intro ids hours format
    cases hours <;> rfl
  · intro ids format
    rfl
  · intro id distance age format
    rcases id with _ | s
    · cases distance <;> cases age <;> rfl
    · by_cases hs : s = ""
      · subst hs
        cases distance <;> cases age <;> rfl
      · simp only [pireps_params]
        rw [if_neg hs]
        cases distance <;> cases age <;> rfl
  · intro format hazard
    rcases hazard with _ | h
    · rfl
    · by_cases hh : h = ""
      · subst hh
        rfl
      · simp only [airsigmet_params]
        rw [if_neg hh]
        rfl
  · intro ids format
    rfl
  · intro s hs
    simp only [pyOrStr]
    rw [if_neg hs]

/-- Witness for C9 (amended): a truthy supplied format value "raw" is
forwarded unchanged, and the key is present. -/
theorem c9_format_always_present_witness :
    List.lookup "format" (metar_params "KTUS" none (some "raw")) =
      some (PyVal.str (pyOrStr (some "raw") "json")) ∧
    pyOrStr (some "raw") "json" = "raw" :=
  ⟨c9_format_always_present.1 "KTUS" none (some "raw"),
   c9_format_always_present.2.2.2.2.2.1 "raw" (by decide)⟩

/-- C10: for every operation, an explicitly supplied falsy format (Python
None or the empty string) is coerced by `format or "json"` to the default:
the outgoing "format" parameter is "json" in both cases. -/
theorem c10_falsy_format_coerced :
    (∀ ids hours,
      List.lookup "format" (metar_params ids hours none) =
        some (PyVal.str "json") ∧
      List.lookup "format" (metar_params ids hours (some "")) =
        some (PyVal.str "json")) ∧
    (∀ ids,
      List.lookup "format" (taf_params ids none) = some (PyVal.str "json") ∧
      List.lookup "format" (taf_params ids (some "")) =
        some (PyVal.str "json")) ∧
    (∀ id distance age,
      List.lookup "format" (pireps_params id distance age none) =
        some (PyVal.str "json") ∧
      List.lookup "format" (pireps_params id distance age (some "")) =
        some (PyVal.str "json")) ∧
    (∀ hazard,
      List.lookup "format" (airsigmet_params none hazard) =
        some (PyVal.str "json") ∧
      List.lookup "format" (airsigmet_params (some "") hazard) =
        some (PyVal.str "json")) ∧
    (∀ ids,
      List.lookup "format" (station_info_params ids none) =
        some (PyVal.str "json") ∧
      List.lookup "format" (station_info_params ids (some "")) =
        some (PyVal.str "json")) := by
  refine ⟨?_, ?_, ?_, ?_, ?_⟩
  · intro ids hours
    cases hours <;> exact ⟨rfl, rfl⟩
  · intro ids
    exact ⟨rfl, rfl⟩
  · intro id distance age
    constructor <;>
      (rcases id with _ | s
       · cases distance <;> cases age <;> rfl
       · by_cases hs : s = ""
         · subst hs
           cases distance <;> cases age <;> rfl
         · simp only [pireps_params]
           rw [if_neg hs]
           cases distance <;> cases age <;> rfl)
  · intro hazard
    constructor <;>
      (rcases hazard with _ | h
       · rfl
       · by_cases hh : h = ""
         · subst hh
           rfl
         · simp only [airsigmet_params]
           rw [if_neg hh]
           rfl)
  · intro ids
    exact ⟨rfl, rfl⟩
